import Mathlib

/-!
Shallow embedding of `src/app/index.tsx` (the `LocationApp` screen).

The screen's React state is modelled as an explicit record `AppState`;
each state setter becomes a functional update.  The external world seen
by one invocation of an operation (the results of the awaited device /
network calls) is collected in an environment record, and the observable
side effects (alerts, HTTP posts, the position-fix request, the
`setTimeout` retry scheduling) are returned as an explicit effect list.
-/

namespace DustBuster

/-- A latitude/longitude pair, the `coords` of an `expo-location`
`LocationObject`. -/
structure Coords where
  latitude : ℚ
  longitude : ℚ
deriving DecidableEq, Repr

/-- `Location.LocationObject` as far as the app reads it. -/
structure LocationObject where
  coords : Coords
deriving DecidableEq, Repr

/-- A `react-native-maps` `Region`, as built at lines 125-130. -/
structure Region where
  latitude : ℚ
  longitude : ℚ
  latitudeDelta : ℚ
  longitudeDelta : ℚ
deriving DecidableEq, Repr

/-- The `type` field of `LocationError` (`'error' | 'warning'`). -/
inductive ErrorType where
  | error
  | warning
deriving DecidableEq, Repr

/-- The `LocationError` interface (lines 22-25). -/
structure LocationError where
  message : String
  type : ErrorType
deriving DecidableEq, Repr

/-- The React state of `LocationApp` (lines 28-32). -/
structure AppState where
  location : Option LocationObject
  errorMsg : Option LocationError
  mapRegion : Option Region
  loading : Bool
  retryCount : Nat
deriving DecidableEq, Repr

/-- `MAX_RETRIES` (line 33). -/
def MAX_RETRIES : Nat := 3

/-- The initial state produced by the `useState` calls (lines 28-32):
no location, no error, no region, `loading = true`, `retryCount = 0`. -/
def initialAppState : AppState :=
  { location := none, errorMsg := none, mapRegion := none,
    loading := true, retryCount := 0 }

/-- Observable side effects of one invocation: a modal `Alert.alert`,
the `setTimeout(getCurrentLocation, delayMs)` retry scheduling, the
`Location.getCurrentPositionAsync` request, and an `axios.post` of the
coordinates. -/
inductive Effect where
  | alert (title message : String)
  | scheduleRetry (delayMs : Nat)
  | fixRequest
  | httpPost (lat long : ℚ)
deriving DecidableEq, Repr

/-- Outcome of `Location.hasServicesEnabledAsync()`: resolves with a
boolean, or rejects. -/
inductive ServicesResult where
  | ok (enabled : Bool)
  | throws
deriving DecidableEq, Repr

/-- Outcome of `PermissionsAndroid.request`: one of the
`PermissionsAndroid.RESULTS` values, or a rejection (caught at
lines 73-76). -/
inductive AndroidPermResult where
  | granted
  | denied
  | neverAskAgain
  | throws
deriving DecidableEq, Repr

/-- Outcome of `Location.getCurrentPositionAsync`: a position fix, or a
rejection whose error carries `msg` as its `.message`. -/
inductive FixResult where
  | ok (loc : LocationObject)
  | throws (msg : String)
deriving DecidableEq, Repr

/-- `Platform.OS` as tested at line 105. -/
inductive PlatformOS where
  | android
  | ios
deriving DecidableEq, Repr

/-- The environment one call of `getCurrentLocation` runs against: the
platform, and the results of the three awaited device calls. -/
structure AttemptEnv where
  platform : PlatformOS
  services : ServicesResult
  androidPerm : AndroidPermResult
  iosPermStatus : String
  fix : FixResult
deriving DecidableEq, Repr

/-- Result of one call of `getCurrentLocation`: the state after all
setter calls, the side effects in order, and the returned boolean. -/
structure AttemptResult where
  state : AppState
  effects : List Effect
  ret : Bool
deriving DecidableEq, Repr

/-- The warning-severity error recorded when location services are
disabled (lines 83-86). -/
def servicesDisabledError : LocationError :=
  { message := "Location services are disabled. Please enable them in your device settings.",
    type := .warning }

/-- The error recorded when permission is not granted (lines 113-116). -/
def permissionDeniedError : LocationError :=
  { message := "Location permission denied. Please enable it in app settings.",
    type := .error }

/-- The terminal error recorded after retries are exhausted (line 140):
the underlying cause's message is appended. -/
def fixFailedError (msg : String) : LocationError :=
  { message := "Failed to get location: " ++ msg, type := .error }

/-- `requestAndroidPermission` (lines 60-77): true exactly when the
dialog resolves `GRANTED`; a rejection is caught and yields false. -/
def requestAndroidPermission : AndroidPermResult → Bool
  | .granted => true
  | .denied => false
  | .neverAskAgain => false
  | .throws => false

/-- `checkLocationServices` (lines 79-94): returns the updated state and
the boolean result.  When services are disabled it records a
warning-severity error; when the check itself rejects, the catch block
only logs and returns false. -/
def checkLocationServices (s : AppState) : ServicesResult → AppState × Bool
  | .ok true => (s, true)
  | .ok false =>
      ({ s with errorMsg := some servicesDisabledError }, false)
  | .throws => (s, false)

/-- The `try` block of `getCurrentLocation` (lines 100-143), after
`setLoading(true); setErrorMsg(null)` have run. -/
def getCurrentLocationBody (s : AppState) (env : AttemptEnv) :
    AppState × List Effect × Bool :=
  let (s1, servicesEnabled) := checkLocationServices s env.services
  if !servicesEnabled then (s1, [], false)
  else
    let hasPermission :=
      match env.platform with
      | .android => requestAndroidPermission env.androidPerm
      | .ios => env.iosPermStatus == "granted"
    if !hasPermission then
      ({ s1 with errorMsg := some permissionDeniedError }, [], false)
    else
      match env.fix with
      | .ok loc =>
          ({ s1 with
              location := some loc,
              mapRegion := some
                { latitude := loc.coords.latitude,
                  longitude := loc.coords.longitude,
                  latitudeDelta := 0.01,
                  longitudeDelta := 0.01 },
              retryCount := 0 },
           [.fixRequest], true)
      | .throws msg =>
          if s1.retryCount < MAX_RETRIES then
            ({ s1 with retryCount := s1.retryCount + 1 },
             [.fixRequest, .scheduleRetry 2000], false)
          else
            ({ s1 with errorMsg := some (fixFailedError msg) },
             [.fixRequest,
              .alert "Location Error" "Unable to get your location. Please try again."],
             false)

/-- The state after the first two lines of `getCurrentLocation`
(lines 97-98): `setLoading(true); setErrorMsg(null)`. -/
def attemptStart (s : AppState) : AppState :=
  { s with loading := true, errorMsg := none }

/-- The `finally` block (lines 144-146): `setLoading(false)` runs on
every branch, after the body's value has been computed. -/
def applyFinalizer : AppState × List Effect × Bool → AttemptResult
  | (s, effs, ret) => { state := { s with loading := false }, effects := effs, ret := ret }

/-- `getCurrentLocation` (lines 96-147). -/
def getCurrentLocation (s : AppState) (env : AttemptEnv) : AttemptResult :=
  applyFinalizer (getCurrentLocationBody (attemptStart s) env)

/-- `getCurrentLocation` as the closure of one particular render,
refining the body above with React's snapshot semantics: state reads
inside a closure see the creating render's snapshot, so the
`retryCount < MAX_RETRIES` guard at line 135 tests the captured value
`snap`, while the setter calls update the live state `s` (the
functional updater `prev => prev + 1` at line 136 increments the live
counter).  Everything else is identical: `retryCount` is the only
state variable the function reads. -/
def getCurrentLocationClosureBody (snap : Nat) (s : AppState) (env : AttemptEnv) :
    AppState × List Effect × Bool :=
  let (s1, servicesEnabled) := checkLocationServices s env.services
  if !servicesEnabled then (s1, [], false)
  else
    let hasPermission :=
      match env.platform with
      | .android => requestAndroidPermission env.androidPerm
      | .ios => env.iosPermStatus == "granted"
    if !hasPermission then
      ({ s1 with errorMsg := some permissionDeniedError }, [], false)
    else
      match env.fix with
      | .ok loc =>
          ({ s1 with
              location := some loc,
              mapRegion := some
                { latitude := loc.coords.latitude,
                  longitude := loc.coords.longitude,
                  latitudeDelta := 0.01,
                  longitudeDelta := 0.01 },
              retryCount := 0 },
           [.fixRequest], true)
      | .throws msg =>
          if snap < MAX_RETRIES then
            ({ s1 with retryCount := s1.retryCount + 1 },
             [.fixRequest, .scheduleRetry 2000], false)
          else
            ({ s1 with errorMsg := some (fixFailedError msg) },
             [.fixRequest,
              .alert "Location Error" "Unable to get your location. Please try again."],
             false)

/-- One invocation of the render closure with captured counter `snap`
against live state `s`: `setLoading(true); setErrorMsg(null)`, the try
body, then the finalizer. -/
def getCurrentLocationClosure (snap : Nat) (s : AppState) (env : AttemptEnv) :
    AttemptResult :=
  applyFinalizer (getCurrentLocationClosureBody snap (attemptStart s) env)

/-- Outcome of the `axios.post` at line 157: a response whose body has a
boolean `success`, or a request-level rejection. -/
inductive HttpResult where
  | ok (success : Bool)
  | throws
deriving DecidableEq, Repr

/-- `sendLocationToServer` (lines 149-171).  It calls no state setter,
so the state is returned unchanged; the effects are the request and the
resulting alert. -/
def sendLocationToServer (s : AppState) (http : HttpResult) :
    AppState × List Effect :=
  match s.location with
  | none =>
      (s, [.alert "Error" "Location data is not available. Please refresh your location."])
  | some loc =>
      match http with
      | .ok true =>
          (s, [.httpPost loc.coords.latitude loc.coords.longitude,
               .alert "Success" "Location shared successfully via server."])
      | .ok false =>
          (s, [.httpPost loc.coords.latitude loc.coords.longitude,
               .alert "Failed" "Failed to send location via server. Please try again."])
      | .throws =>
          (s, [.httpPost loc.coords.latitude loc.coords.longitude,
               .alert "Error" "Failed to send location to server. Please try again."])

/-- The `ws.onmessage` handler as actually installed (lines 35-58): the
mount effect runs once (empty dependency array), so the handler closes
over the FIRST render's `sendLocationToServer`, whose captured
`location` is the initial `null`; later renders never reinstall it.
Every inbound message therefore runs the report against the first
render's state, regardless of the live state at message time. -/
def wsOnMessageHandler (http : HttpResult) : AppState × List Effect :=
  sendLocationToServer initialAppState http

/-- The HTTP posts among a list of effects, as (lat, long) pairs. -/
def posts (effs : List Effect) : List (ℚ × ℚ) :=
  effs.filterMap fun e =>
    match e with
    | .httpPost lat long => some (lat, long)
    | _ => none

/-- An environment where services are on, permission is granted, and the
position fix rejects with message `m`. -/
def failFixEnv (m : String) : AttemptEnv :=
  { platform := .android, services := .ok true, androidPerm := .granted,
    iosPermStatus := "granted", fix := .throws m }

/-- An environment where services are on, permission is granted, and the
position fix succeeds with `loc`. -/
def okFixEnv (loc : LocationObject) : AttemptEnv :=
  { platform := .android, services := .ok true, androidPerm := .granted,
    iosPermStatus := "granted", fix := .ok loc }

/-- The live state after a chain of consecutive automatic failures: the
`setTimeout(getCurrentLocation, 2000)` at line 137 re-schedules the
very closure that is executing, so every invocation of a timer-driven
chain carries the same captured counter `snap` (0 for the chain the
mount effect at line 174 starts), while the live state is threaded from
call to call.  `msgs` are the successive fix-rejection messages. -/
def chainState (snap : Nat) (s : AppState) (msgs : List String) : AppState :=
  msgs.foldl (fun st m => (getCurrentLocationClosure snap st (failFixEnv m)).state) s

/-- The result of the last invocation of a timer-driven chain of
`msgs.length + 1` consecutive fix failures with frozen captured counter
`snap`, starting from live state `s`; `m` is the last rejection's
message. -/
def runTimerChain (snap : Nat) (s : AppState) (msgs : List String) (m : String) :
    AttemptResult :=
  getCurrentLocationClosure snap (chainState snap s msgs) (failFixEnv m)

/-- A sample position fix used in concrete witnesses. -/
def sampleLoc : LocationObject := { coords := { latitude := 7, longitude := 11 } }

/-- A state in which a position has already been acquired, used in
concrete witnesses. -/
def readyState : AppState :=
  { location := some sampleLoc, errorMsg := none, mapRegion := none,
    loading := false, retryCount := 0 }

/-- An environment with services enabled but Android permission denied,
used in concrete witnesses. -/
def deniedEnv : AttemptEnv :=
  { platform := .android, services := .ok true, androidPerm := .denied,
    iosPermStatus := "granted", fix := .throws "boom" }

/-- Claim C7: when location services are disabled the attempt fails in
one call with the warning-severity services-disabled error, performs no
position-fix request and schedules no retry (empty effect list), and
loading resolves to false. -/
theorem services_disabled_terminal (s : AppState) (env : AttemptEnv)
    (h : env.services = .ok false) :
    getCurrentLocation s env =
      { state := { s with loading := false, errorMsg := some servicesDisabledError },
        effects := [], ret := false } := by
  rcases env with ⟨p, sv, ap, ios, fx⟩
  cases h
  rfl

/-- Witness for `services_disabled_terminal` at a concrete state and
environment. -/
theorem services_disabled_terminal_witness :
    getCurrentLocation initialAppState
      { platform := .android, services := .ok false, androidPerm := .granted,
        iosPermStatus := "granted", fix := .throws "boom" } =
      { state :=
          { initialAppState with loading := false, errorMsg := some servicesDisabledError },
        effects := [], ret := false } :=
  services_disabled_terminal initialAppState _ rfl

/-- Claim C9: when the services check itself rejects, the attempt
returns false silently: the error state ends up `none`, no alert is
raised, no retry is scheduled (empty effect list), and loading is reset
to false. -/
theorem services_check_throws_silent (s : AppState) (env : AttemptEnv)
    (h : env.services = .throws) :
    getCurrentLocation s env =
      { state := { s with loading := false, errorMsg := none },
        effects := [], ret := false } := by
  rcases env with ⟨p, sv, ap, ios, fx⟩
  cases h
  rfl

/-- Witness for `services_check_throws_silent` at a concrete state and
environment. -/
theorem services_check_throws_silent_witness :
    getCurrentLocation initialAppState
      { platform := .android, services := .throws, androidPerm := .granted,
        iosPermStatus := "granted", fix := .throws "boom" } =
      { state := { initialAppState with loading := false, errorMsg := none },
        effects := [], ret := false } :=
  services_check_throws_silent initialAppState _ rfl

/-- Claim C4: a report attempt with no acquired position raises the
missing-location error alert and performs no HTTP request. -/
theorem report_without_position (s : AppState) (http : HttpResult)
    (h : s.location = none) :
    sendLocationToServer s http =
      (s, [Effect.alert "Error" "Location data is not available. Please refresh your location."])
    ∧ posts (sendLocationToServer s http).2 = [] := by
  constructor
  · simp [sendLocationToServer, h]
  · simp [sendLocationToServer, h, posts]

/-- Witness for `report_without_position` at the initial state. -/
theorem report_without_position_witness :
    sendLocationToServer initialAppState (.ok true) =
      (initialAppState,
       [Effect.alert "Error" "Location data is not available. Please refresh your location."])
    ∧ posts (sendLocationToServer initialAppState (.ok true)).2 = [] :=
  report_without_position initialAppState (.ok true) rfl

/-- Claim C2 (code bug): the installed `ws.onmessage` handler runs the
first render's report closure, whose captured `location` is the initial
`null`.  Hence every inbound socket message — in particular one
arriving after a position has been acquired, the claim's scenario, and
whatever the server would have answered — raises the missing-location
alert and issues zero HTTP posts, never the claimed single post of the
stored coordinates with a confirmation alert. -/
theorem socket_message_never_posts (http : HttpResult) :
    wsOnMessageHandler http
      = (initialAppState,
         [Effect.alert "Error" "Location data is not available. Please refresh your location."])
    ∧ posts (wsOnMessageHandler http).2 = []
    ∧ initialAppState.location = none :=
  ⟨rfl, rfl, rfl⟩

/-- Claim C5: while the retry counter is below `MAX_RETRIES`, each
failed fix attempt increments the counter by exactly one and schedules
one retry with the fixed 2000 ms delay, and a successful fix resets the
counter to zero and records the new position. -/
theorem retry_counter_step (s : AppState) (m : String) (loc : LocationObject)
    (h : s.retryCount < MAX_RETRIES) :
    ((getCurrentLocation s (failFixEnv m)).state.retryCount = s.retryCount + 1
      ∧ (getCurrentLocation s (failFixEnv m)).effects
          = [Effect.fixRequest, Effect.scheduleRetry 2000])
    ∧ ((getCurrentLocation s (okFixEnv loc)).state.retryCount = 0
      ∧ (getCurrentLocation s (okFixEnv loc)).state.location = some loc) := by
  refine ⟨⟨?_, ?_⟩, ?_, ?_⟩ <;>
    simp [getCurrentLocation, getCurrentLocationBody, attemptStart, applyFinalizer,
      checkLocationServices, requestAndroidPermission, failFixEnv, okFixEnv, h]

/-- Witness for `retry_counter_step` at the initial state. -/
theorem retry_counter_step_witness :
    ((getCurrentLocation initialAppState (failFixEnv "boom")).state.retryCount
        = initialAppState.retryCount + 1
      ∧ (getCurrentLocation initialAppState (failFixEnv "boom")).effects
          = [Effect.fixRequest, Effect.scheduleRetry 2000])
    ∧ ((getCurrentLocation initialAppState (okFixEnv sampleLoc)).state.retryCount = 0
      ∧ (getCurrentLocation initialAppState (okFixEnv sampleLoc)).state.location
          = some sampleLoc) :=
  retry_counter_step initialAppState "boom" sampleLoc (by decide)

/-- Claim C6: a report attempt with a stored position issues the post
and then alerts according to the outcome — confirmation when the
response's success flag is true, the failure alert when it is false,
and the caught-exception alert when the request rejects — and the whole
screen state (position, error descriptor, retry counter, loading flag)
is returned unchanged. -/
theorem report_outcomes (s : AppState) (loc : LocationObject) (http : HttpResult)
    (h : s.location = some loc) :
    (sendLocationToServer s http).1 = s
    ∧ (sendLocationToServer s http).2
        = [Effect.httpPost loc.coords.latitude loc.coords.longitude,
           match http with
           | .ok true => Effect.alert "Success" "Location shared successfully via server."
           | .ok false => Effect.alert "Failed" "Failed to send location via server. Please try again."
           | .throws => Effect.alert "Error" "Failed to send location to server. Please try again."] := by
  cases http with
  | ok b => cases b <;> simp [sendLocationToServer, h]
  | throws => simp [sendLocationToServer, h]

/-- Witness for `report_outcomes` at a state holding the sample position
and a rejected request. -/
theorem report_outcomes_witness :
    (sendLocationToServer readyState .throws).1 = readyState
    ∧ (sendLocationToServer readyState .throws).2
        = [Effect.httpPost sampleLoc.coords.latitude sampleLoc.coords.longitude,
           Effect.alert "Error" "Failed to send location to server. Please try again."] :=
  report_outcomes readyState sampleLoc .throws rfl

/-- Claim C8: with services enabled, a permission request that does not
resolve to the granted outcome (on Android, anything but `GRANTED`; on
iOS, any status other than `granted`) makes the attempt fail at once
with the error-severity permission-denied message, with no position-fix
request and no retry scheduled; and on Android exactly the `GRANTED`
result counts as success. -/
theorem permission_denied_terminal (s : AppState) (env : AttemptEnv)
    (hs : env.services = .ok true)
    (hp : (env.platform = .android ∧ env.androidPerm ≠ .granted)
        ∨ (env.platform = .ios ∧ env.iosPermStatus ≠ "granted")) :
    (getCurrentLocation s env =
      { state := { s with loading := false, errorMsg := some permissionDeniedError },
        effects := [], ret := false })
    ∧ (∀ p : AndroidPermResult, requestAndroidPermission p = true ↔ p = .granted) := by
  rcases env with ⟨p, sv, ap, ios, fx⟩
  cases hs
  refine ⟨?_, fun p => by cases p <;> simp [requestAndroidPermission]⟩
  rcases hp with ⟨hpa, hga⟩ | ⟨hpi, hgi⟩
  · cases hpa
    cases ap
    · exact absurd rfl hga
    · rfl
    · rfl
    · rfl
  · cases hpi
    have hb : (ios == "granted") = false := beq_eq_false_iff_ne.mpr hgi
    simp [getCurrentLocation, getCurrentLocationBody, attemptStart, applyFinalizer,
      checkLocationServices, hb]

/-- Witness for `permission_denied_terminal` with an Android denial. -/
theorem permission_denied_terminal_witness :
    (getCurrentLocation initialAppState deniedEnv =
      { state :=
          { initialAppState with loading := false, errorMsg := some permissionDeniedError },
        effects := [], ret := false })
    ∧ (requestAndroidPermission .denied = true ↔ AndroidPermResult.denied = .granted) :=
  ⟨(permission_denied_terminal initialAppState deniedEnv rfl (Or.inl ⟨rfl, by decide⟩)).1,
   (permission_denied_terminal initialAppState deniedEnv rfl (Or.inl ⟨rfl, by decide⟩)).2 .denied⟩

/-- Helper: the loading flag is false after the finalizer, on every
branch. -/
theorem applyFinalizer_loading (x : AppState × List Effect × Bool) :
    (applyFinalizer x).state.loading = false := by
  rcases x with ⟨a, b, c⟩
  rfl

/-- Helper: the refined closure semantics agrees with
`getCurrentLocation` whenever the captured counter is in sync with the
live one — the case of a fresh invocation from an up-to-date render,
such as a manual refresh press. -/
theorem getCurrentLocation_eq_closure (s : AppState) (env : AttemptEnv) :
    getCurrentLocation s env = getCurrentLocationClosure s.retryCount s env := by
  rcases env with ⟨p, sv, ap, ios, fx⟩
  cases sv with
  | throws => rfl
  | ok e => cases e <;> rfl

/-- Helper: one closure invocation whose fix rejects while the captured
counter is still below the bound — the live counter is incremented and
a 2000 ms retry of the same closure is scheduled. -/
theorem closure_fail_retry (snap : Nat) (s : AppState) (m : String)
    (h : snap < MAX_RETRIES) :
    getCurrentLocationClosure snap s (failFixEnv m) =
      ⟨{ s with loading := false, errorMsg := none, retryCount := s.retryCount + 1 },
       [.fixRequest, .scheduleRetry 2000], false⟩ := by
  simp [getCurrentLocationClosure, getCurrentLocationClosureBody, attemptStart,
    applyFinalizer, checkLocationServices, requestAndroidPermission, failFixEnv, h]

/-- Helper: one closure invocation whose fix rejects while the captured
counter has reached the bound — the terminal error branch of line 140. -/
theorem closure_fail_terminal (snap : Nat) (s : AppState) (m : String)
    (h : ¬ snap < MAX_RETRIES) :
    getCurrentLocationClosure snap s (failFixEnv m) =
      ⟨{ s with loading := false, errorMsg := some (fixFailedError m) },
       [.fixRequest,
        .alert "Location Error" "Unable to get your location. Please try again."],
       false⟩ := by
  simp [getCurrentLocationClosure, getCurrentLocationClosureBody, attemptStart,
    applyFinalizer, checkLocationServices, requestAndroidPermission, failFixEnv, h]

/-- Helper: along a timer chain with frozen captured counter below the
bound, each failure adds exactly 1 to the live counter. -/
theorem chainState_retryCount (snap : Nat) (h : snap < MAX_RETRIES)
    (s : AppState) (msgs : List String) :
    (chainState snap s msgs).retryCount = s.retryCount + msgs.length := by
  induction msgs generalizing s with
  | nil => simp [chainState]
  | cons m ms ih =>
    show (chainState snap (getCurrentLocationClosure snap s (failFixEnv m)).state ms).retryCount
      = s.retryCount + (m :: ms).length
    rw [closure_fail_retry snap s m h, ih]
    show s.retryCount + 1 + ms.length = s.retryCount + (m :: ms).length
    simp only [List.length_cons]
    omega

/-- Claim C3: the stored position is a last-good-value — every call of
`getCurrentLocation` either leaves the position exactly as it was, or
the position fix succeeded, the call returned true and the fixed
position was recorded.  In particular no failing attempt clears or
overwrites a previously acquired position. -/
theorem position_last_good_value (s : AppState) (env : AttemptEnv) :
    (getCurrentLocation s env).state.location = s.location
    ∨ ∃ loc, env.fix = FixResult.ok loc
        ∧ (getCurrentLocation s env).ret = true
        ∧ (getCurrentLocation s env).state.location = some loc := by
  rcases env with ⟨p, sv, ap, ios, fx⟩
  cases sv with
  | throws => exact Or.inl rfl
  | ok e =>
    cases e with
    | false => exact Or.inl rfl
    | true =>
      cases p with
      | android =>
        cases ap with
        | denied => exact Or.inl rfl
        | neverAskAgain => exact Or.inl rfl
        | throws => exact Or.inl rfl
        | granted =>
          cases fx with
          | ok loc => exact Or.inr ⟨loc, rfl, rfl, rfl⟩
          | throws m =>
            refine Or.inl ?_
            by_cases hr : s.retryCount < MAX_RETRIES <;>
              simp [getCurrentLocation, getCurrentLocationBody, attemptStart,
                applyFinalizer, checkLocationServices, requestAndroidPermission, hr]
      | ios =>
        cases hb : (ios == "granted") with
        | false =>
          refine Or.inl ?_
          simp [getCurrentLocation, getCurrentLocationBody, attemptStart,
            applyFinalizer, checkLocationServices, hb]
        | true =>
          cases fx with
          | ok loc =>
            refine Or.inr ⟨loc, rfl, ?_, ?_⟩ <;>
              simp [getCurrentLocation, getCurrentLocationBody, attemptStart,
                applyFinalizer, checkLocationServices, hb]
          | throws m =>
            refine Or.inl ?_
            by_cases hr : s.retryCount < MAX_RETRIES <;>
              simp [getCurrentLocation, getCurrentLocationBody, attemptStart,
                applyFinalizer, checkLocationServices, hb, hr]

/-- Claim C10: whenever a call of `getCurrentLocation` schedules a
retry, the state it leaves behind for the 2-second delay has
`loading = false` and the call returned false; the retry invocation
itself begins by running `setLoading(true)` (the `attemptStart` of the
inter-delay state has `loading = true`). -/
theorem not_loading_during_retry_delay (s : AppState) (env : AttemptEnv)
    (h : Effect.scheduleRetry 2000 ∈ (getCurrentLocation s env).effects) :
    (getCurrentLocation s env).state.loading = false
    ∧ (getCurrentLocation s env).ret = false
    ∧ (attemptStart (getCurrentLocation s env).state).loading = true := by
  refine ⟨applyFinalizer_loading _, ?_, rfl⟩
  rcases env with ⟨p, sv, ap, ios, fx⟩
  cases sv with
  | throws =>
    simp [getCurrentLocation, getCurrentLocationBody, attemptStart, applyFinalizer,
      checkLocationServices] at h
  | ok e =>
    cases e with
    | false =>
      simp [getCurrentLocation, getCurrentLocationBody, attemptStart, applyFinalizer,
        checkLocationServices] at h
    | true =>
      cases p with
      | android =>
        cases ap with
        | denied =>
          simp [getCurrentLocation, getCurrentLocationBody, attemptStart, applyFinalizer,
            checkLocationServices, requestAndroidPermission] at h
        | neverAskAgain =>
          simp [getCurrentLocation, getCurrentLocationBody, attemptStart, applyFinalizer,
            checkLocationServices, requestAndroidPermission] at h
        | throws =>
          simp [getCurrentLocation, getCurrentLocationBody, attemptStart, applyFinalizer,
            checkLocationServices, requestAndroidPermission] at h
        | granted =>
          cases fx with
          | ok loc =>
            simp [getCurrentLocation, getCurrentLocationBody, attemptStart, applyFinalizer,
              checkLocationServices, requestAndroidPermission] at h
          | throws m =>
            by_cases hr : s.retryCount < MAX_RETRIES <;>
              simp [getCurrentLocation, getCurrentLocationBody, attemptStart, applyFinalizer,
                checkLocationServices, requestAndroidPermission, hr] at h ⊢
      | ios =>
        cases hb : (ios == "granted") with
        | false =>
          simp [getCurrentLocation, getCurrentLocationBody, attemptStart, applyFinalizer,
            checkLocationServices, hb] at h
        | true =>
          cases fx with
          | ok loc =>
            simp [getCurrentLocation, getCurrentLocationBody, attemptStart, applyFinalizer,
              checkLocationServices, hb] at h
          | throws m =>
            by_cases hr : s.retryCount < MAX_RETRIES <;>
              simp [getCurrentLocation, getCurrentLocationBody, attemptStart, applyFinalizer,
                checkLocationServices, hb, hr] at h ⊢

/-- Witness for `not_loading_during_retry_delay` at the initial state
with a failing fix. -/
theorem not_loading_during_retry_delay_witness :
    (getCurrentLocation initialAppState (failFixEnv "boom")).state.loading = false
    ∧ (getCurrentLocation initialAppState (failFixEnv "boom")).ret = false
    ∧ (attemptStart (getCurrentLocation initialAppState (failFixEnv "boom")).state).loading
        = true :=
  not_loading_during_retry_delay initialAppState (failFixEnv "boom") (by decide)

/-- Counterexample to claim C1: on the timer chain the mount effect
starts (captured counter frozen at 0), the third consecutive fix
failure still schedules an automatic retry and records no error — and
so does the fourth, while the live counter has already climbed to 4:
the terminal error the claim describes never follows three consecutive
automatic failures. -/
theorem automatic_third_failure_still_retries :
    (runTimerChain 0 initialAppState ["e1", "e2"] "e3").effects
      = [Effect.fixRequest, Effect.scheduleRetry 2000]
    ∧ (runTimerChain 0 initialAppState ["e1", "e2"] "e3").state.errorMsg = none
    ∧ (runTimerChain 0 initialAppState ["e1", "e2", "e3"] "e4").effects
      = [Effect.fixRequest, Effect.scheduleRetry 2000]
    ∧ (runTimerChain 0 initialAppState ["e1", "e2", "e3"] "e4").state.errorMsg = none
    ∧ (runTimerChain 0 initialAppState ["e1", "e2", "e3"] "e4").state.retryCount = 4 :=
  ⟨rfl, rfl, rfl, rfl, rfl⟩

/-- Claim C1 (amended): a timer-driven retry chain keeps the captured
counter of the render that started it, so as long as that captured
counter is below `MAX_RETRIES` (it is 0 for the mount-started chain)
every consecutive automatic failure — the third, the fourth, and every
later one — schedules another fixed-delay retry and records no error,
while the live counter grows by one per failure without bound.  The
error-severity failure with the underlying cause appended and the
blocking alert occur exactly on an invocation whose captured counter
has reached `MAX_RETRIES`, which only a fresh invocation from a render
whose counter is already at least 3 (e.g. a manual refresh after the
live counter climbed there) can produce. -/
theorem automatic_retries_never_exhaust (s : AppState) (msgs : List String)
    (m : String) (snap0 snapT : Nat)
    (h0 : snap0 < MAX_RETRIES) (hT : MAX_RETRIES ≤ snapT) :
    (runTimerChain snap0 s msgs m).effects
        = [Effect.fixRequest, Effect.scheduleRetry 2000]
    ∧ (runTimerChain snap0 s msgs m).state.errorMsg = none
    ∧ (runTimerChain snap0 s msgs m).ret = false
    ∧ (runTimerChain snap0 s msgs m).state.retryCount
        = s.retryCount + msgs.length + 1
    ∧ getCurrentLocationClosure snapT s (failFixEnv m)
        = ⟨{ s with loading := false, errorMsg := some (fixFailedError m) },
           [Effect.fixRequest,
            Effect.alert "Location Error" "Unable to get your location. Please try again."],
           false⟩ := by
  have hrun : runTimerChain snap0 s msgs m
      = getCurrentLocationClosure snap0 (chainState snap0 s msgs) (failFixEnv m) := rfl
  rw [hrun, closure_fail_retry snap0 (chainState snap0 s msgs) m h0]
  refine ⟨rfl, rfl, rfl, ?_, closure_fail_terminal snapT s m (Nat.not_lt.mpr hT)⟩
  show (chainState snap0 s msgs).retryCount + 1 = s.retryCount + msgs.length + 1
  rw [chainState_retryCount snap0 h0 s msgs]

/-- Witness for `automatic_retries_never_exhaust`: the mount chain
(captured counter 0) still retries on its fourth consecutive failure,
and a fresh invocation with captured counter 3 is terminal. -/
theorem automatic_retries_never_exhaust_witness :
    (runTimerChain 0 initialAppState ["a", "b", "c"] "d").effects
        = [Effect.fixRequest, Effect.scheduleRetry 2000]
    ∧ (runTimerChain 0 initialAppState ["a", "b", "c"] "d").state.errorMsg = none
    ∧ (runTimerChain 0 initialAppState ["a", "b", "c"] "d").ret = false
    ∧ (runTimerChain 0 initialAppState ["a", "b", "c"] "d").state.retryCount
        = initialAppState.retryCount + ["a", "b", "c"].length + 1
    ∧ getCurrentLocationClosure 3 initialAppState (failFixEnv "d")
        = ⟨{ initialAppState with loading := false, errorMsg := some (fixFailedError "d") },
           [Effect.fixRequest,
            Effect.alert "Location Error" "Unable to get your location. Please try again."],
           false⟩ :=
  automatic_retries_never_exhaust initialAppState ["a", "b", "c"] "d" 0 3
    (by decide) (by decide)

end DustBuster
